import Mathlib

/-!
Shallow embedding of the robottelo issue-handler subsystem:
`robottelo/utils/issue_handlers/jira.py` and the issue-handler parts of
`pytest_plugins/issue_handlers.py`.

Modelling conventions
* Python version objects (`packaging.version.Version`) are modelled by `Ver`,
  a pair of numeric components: the codebase only ever manipulates `d.d`
  versions (see `VERSION_RE` in `jira.py`, which captures the group `\d.\d`).
* Python exceptions are modelled with `Except PyErr`.
* Python truthiness is modelled explicitly where the code relies on it: the
  expression `get_sat_version() < min(jr.get('fixVersions')) or Version('0')`
  in `is_open_jr` returns either the boolean `True` or the (truthy)
  object `Version('0')`, so the result type of `is_open_jr` is `PyVal`.
* Issue records are Python dicts; a field read with `.get` is an `Option`.
  The nested `dupe_data` dict chain is the inductive `JRec`; the separate
  pointer-graph model `followDupHeap` captures Python reference semantics
  (where a `dupe_data` chain may revisit a record).
-/

/-- Python `packaging.version.Version`, restricted to the two-component
numeric versions this codebase manipulates (e.g. `6.10`). -/
structure Ver where
  major : Nat
  minor : Nat
  deriving DecidableEq, Repr

/-- Python `<` on such versions: lexicographic on the numeric components. -/
def vlt (a b : Ver) : Bool :=
  a.major < b.major || (a.major == b.major && a.minor < b.minor)

/-- Python builtin `min` on a nonempty list (the first minimum wins, as in
CPython: `min` replaces the running minimum only on strict `<`). -/
def minVer (v : Ver) (vs : List Ver) : Ver :=
  vs.foldl (fun m x => if vlt x m then x else m) v

/-- The Python exceptions the modelled code can raise. -/
inductive PyErr where
  | typeError
  | valueError
  | indexError
  | attributeError
  | connError
  | retryError
  deriving DecidableEq, Repr

/-- A Python value returned by `is_open_jr`: either a `bool` or a
`Version` object (line 48 of `jira.py` can return `Version('0')`). -/
inductive PyVal where
  | pybool (b : Bool)
  | pyver (v : Ver)
  deriving DecidableEq, Repr

/-- Python truthiness of a `PyVal`: a `Version` object defines no
`__bool__`/`__len__`, so it is always truthy. -/
def truthy : PyVal → Bool
  | .pybool b => b
  | .pyver _ => true

/-- The fields of a Jira issue record (a Python dict) that the issue-handler
logic reads.  A missing key (`dict.get` returning `None`) is `none`. -/
structure JRecBase where
  id : Option String := none
  is_open : Option PyVal := none
  is_deselected : Option Bool := none
  status : Option String := none
  resolution : Option String := none
  fixVersions : Option (List Ver) := none
  error : Option String := none
  deriving DecidableEq, Repr

/-- A Jira record together with its (acyclic) nested `dupe_data` chain:
`leaf` is a record whose `dupe_data` is absent/falsy, `dupe b d` is a record
`b` whose `dupe_data` field holds the record `d`. -/
inductive JRec where
  | leaf (b : JRecBase)
  | dupe (b : JRecBase) (d : JRec)
  deriving DecidableEq, Repr

/-- The own fields of a record (ignoring its `dupe_data`). -/
def JRec.base : JRec → JRecBase
  | .leaf b => b
  | .dupe b _ => b

/-- `follow_duplicates` (jira.py lines 70-74): recursively load the duplicate
data; returns the first record whose `dupe_data` is absent/falsy. -/
def follow_duplicates : JRec → JRecBase
  | .leaf b => b
  | .dupe _ d => follow_duplicates d

/-- `OPEN_STATUSES` (jira.py line 13). -/
def OPEN_STATUSES : List String :=
  ["New", "Backlog", "Refinement", "To Do", "In Progress", "Review"]

/-- `CLOSED_STATUSES` (jira.py line 14). -/
def CLOSED_STATUSES : List String := ["Release Pending", "Closed"]

/-- `WONTFIX_RESOLUTIONS` (jira.py line 15).  Note: in the source this is the
bare *string* `"Obsolete"`, not a tuple, so Python `in` against it is a
substring test. -/
def WONTFIX_RESOLUTIONS : String := "Obsolete"

/-- Python `x in t` for an optional string `x` against a tuple/list `t` of
strings: `None in t` is `False`, `s in t` is membership. -/
def statusIn (st : Option String) (l : List String) : Bool :=
  match st with
  | none => false
  | some s => l.contains s

/-- Does `hay` start with `needle` (character-wise)? -/
def startsWithChars : List Char → List Char → Bool
  | [], _ => true
  | _ :: _, [] => false
  | a :: as, b :: bs => a == b && startsWithChars as bs

/-- Contiguous-substring containment on character lists. -/
def hasSubChars (needle : List Char) : List Char → Bool
  | [] => needle.isEmpty
  | c :: rest => startsWithChars needle (c :: rest) || hasSubChars needle rest

/-- Python `x in s` for strings `x`, `s`: contiguous substring containment
(note `"" in s` is `True` for every `s`). -/
def pyInStr (x hay : String) : Bool :=
  hasSubChars x.data hay.data

/-- The `min(fixVersions)`-based tail of `is_open_jr` (jira.py line 48):
`return get_sat_version() < min(jr.get('fixVersions')) or Version('0')`.
`min(None)` raises `TypeError`, `min([])` raises `ValueError`; by Python
precedence the expression is `(sat < min(...)) or Version('0')`, so when the
comparison is `False` the (truthy) object `Version('0')` is returned. -/
def fixedCheck (sat : Ver) (j : JRecBase) : Except PyErr PyVal :=
  match j.fixVersions with
  | none => .error .typeError
  | some [] => .error .valueError
  | some (v :: vs) =>
    .ok (if vlt sat (minVer v vs) then .pybool true else .pyver ⟨0, 0⟩)

/-- Lines 37-48 of `is_open_jr`: the status/resolution decision applied to the
duplicate-followed record.  `jr.get('resolution') in WONTFIX_RESOLUTIONS`
raises `TypeError` when the resolution is `None` (string `in` needs a string
left operand), and is a substring test otherwise. -/
def isOpenPost (sat : Ver) (j : JRecBase) : Except PyErr PyVal :=
  if statusIn j.status OPEN_STATUSES then .ok (.pybool true)
  else if statusIn j.status CLOSED_STATUSES then
    match j.resolution with
    | none => .error .typeError
    | some s =>
      if pyInStr s WONTFIX_RESOLUTIONS then .ok (.pybool true)
      else fixedCheck sat j
  else fixedCheck sat j

/-- `is_open_jr` (jira.py lines 22-48) on a record already resolved from the
given `data` dict (the `try_from_cache` path when the record is passed in):
if the record carries a precomputed `is_open` that value is returned
(line 32: `is not None`), otherwise duplicates are followed and the
status logic runs.  `sat` is `get_sat_version()`. -/
def is_open_jr (sat : Ver) (r : JRec) : Except PyErr PyVal :=
  match r.base.is_open with
  | some v => .ok v
  | none => isOpenPost sat (follow_duplicates r)

/-- Line 67 of `should_deselect_jr`:
`jr.get('status') in CLOSED_STATUSES and jr.get('resolution') in
WONTFIX_RESOLUTIONS` with Python short-circuiting. -/
def shouldDeselectPost (j : JRecBase) : Except PyErr Bool :=
  if statusIn j.status CLOSED_STATUSES then
    match j.resolution with
    | none => .error .typeError
    | some s => .ok (pyInStr s WONTFIX_RESOLUTIONS)
  else .ok false

/-- `should_deselect_jr` (jira.py lines 51-67) on a record resolved from the
given `data` dict: a precomputed `is_deselected` is returned as-is
(line 62), otherwise duplicates are followed and line 67 decides. -/
def should_deselect_jr (r : JRec) : Except PyErr Bool :=
  match r.base.is_deselected with
  | some b => .ok b
  | none => shouldDeselectPost (follow_duplicates r)

/-- `get_default_jr` (jira.py lines 229-240): the conservative record used when
the Jira API cannot be consulted. -/
def get_default_jr (number : String) : JRec :=
  .leaf { id := some number, is_open := some (.pybool true),
          is_deselected := some false, status := some "",
          resolution := some "", fixVersions := none,
          error := some "missing jira api_key" }

/-- Pointer-graph model of `follow_duplicates` under Python reference
semantics: records live in a heap addressed by issue key and `dupe` gives, for
each key, the key its `dupe_data` field references (`none` when absent/falsy).
Unlike the inductive `JRec`, this heap can represent a *cyclic* duplicate
chain, exactly as Python object references can.  The `fuel` argument bounds
the number of recursive calls we are willing to unfold; the source recursion
(jira.py lines 70-74) has no such guard, so `followDupHeap ... fuel = none`
for every `fuel` means the source recursion never returns. -/
def followDupHeap (dupe : String → Option String) (k : String) : Nat → Option String
  | 0 => none
  | n + 1 =>
    match dupe k with
    | none => some k
    | some k2 => followDupHeap dupe k2 n

/-- A malformed heap: the record `SAT-CYCLE` lists itself as its duplicate. -/
def cyclicDupe : String → Option String :=
  fun k => if k = "SAT-CYCLE" then some "SAT-CYCLE" else none

/-- One `used_in` usage record of the collected-issue index. -/
structure Usage where
  filepath : String
  lineno : Nat
  testcase : String
  component : Option String
  importance : Option String
  usagekind : String
  deriving DecidableEq, Repr

/-- One entry of the collected-issue index: the resolved record (`data`, which
may still be missing) plus its usage records. -/
structure Entry where
  data : Option JRec
  used_in : List Usage
  deriving DecidableEq, Repr

/-- Python truthiness of an optional list (`None` and `[]`/`{}` are falsy). -/
def truthyOptList {α : Type} : Option (List α) → Bool
  | none => false
  | some [] => false
  | some (_ :: _) => true

/-- Python truthiness of an optional string (`None` and `''` are falsy). -/
def truthyOptStr : Option String → Bool
  | none => false
  | some s => !(s == "")

/-- The environment a `get_data_jr` call runs in: the module-level
`CACHED_RESPONSES['get_data']` lookup for this batch (`memoHit`), the
`cached_data` argument, `settings.jira.api_key`, and the remote Jira REST API
modelled as a function of the attempt number. -/
structure JiraEnv where
  memoHit : Option (List JRec)
  cachedData : Option (List (String × Entry))
  apiKey : Option String
  api : Nat → Except PyErr (List JRec)

/-- One attempt of the body of `get_data_jr` (jira.py lines 141-212).  The
returned flag records whether the remote API was called on this attempt.
Branches, in source order: empty batch; `CACHED_RESPONSES` memo (truthy
check); `cached_data` (truthy check; returns the `data` field of *every*
cache entry that has one); missing/empty API key (default records); REST
call. -/
def get_data_body (env : JiraEnv) (jr_numbers : List String) (attempt : Nat) :
    Except PyErr (List JRec × Bool) :=
  if jr_numbers.isEmpty then .ok ([], false)
  else
    match env.memoHit with
    | some (x :: xs) => .ok (x :: xs, false)
    | _ =>
      match env.cachedData with
      | some (e :: es) => .ok ((e :: es).filterMap (fun p => p.2.data), false)
      | _ =>
        if truthyOptStr env.apiKey then
          match env.api attempt with
          | .ok l => .ok (l, true)
          | .error e => .error e
        else .ok (jr_numbers.map get_default_jr, false)

/-- The `tenacity.retry` combinator: run `body` on successive attempt numbers;
return the first success; after the allowed number of attempts is exhausted
raise `RetryError` (the default `reraise=False`). -/
def retryGo {α : Type} (body : Nat → Except PyErr α) (attempt : Nat) :
    Nat → Except PyErr α
  | 0 => .error .retryError
  | n + 1 =>
    match body attempt with
    | .ok v => .ok v
    | .error _ => retryGo body (attempt + 1) n

/-- `stop=stop_after_attempt(4)` (jira.py line 138). -/
def RETRY_STOP_ATTEMPTS : Nat := 4

/-- `wait=wait_fixed(20)` (jira.py line 139): seconds between attempts. -/
def RETRY_WAIT_SECONDS : Nat := 20

/-- `get_data_jr` (jira.py lines 137-212) with its `@retry` decorator. -/
def get_data_jr (env : JiraEnv) (jr_numbers : List String) :
    Except PyErr (List JRec × Bool) :=
  retryGo (get_data_body env jr_numbers) 1 RETRY_STOP_ATTEMPTS

/-- The value of a `--BZ`/`--JR` pytest option after
`bz_filters = config.getoption('BZ', None)` followed by
`if bz_filters: bz_filters = bz_filters.split(',')`: either `None`, the
(falsy) unsplit empty string, or the split list. -/
inductive PyFilter where
  | pynone
  | pystr (s : String)
  | pylist (l : List String)
  deriving DecidableEq, Repr

/-- Python `str.split(',')` (always returns at least one piece). -/
def splitCommaGo : List Char → List Char → List String
  | [], acc => [String.mk acc.reverse]
  | c :: rest, acc =>
    if c == ',' then String.mk acc.reverse :: splitCommaGo rest []
    else splitCommaGo rest (c :: acc)

/-- Python `s.split(',')`. -/
def pySplitComma (s : String) : List String := splitCommaGo s.data []

/-- Lines 87-92 of `pytest_collection_modifyitems`: fetch the option and split
it when truthy. -/
def initFilter : Option String → PyFilter
  | none => .pynone
  | some s => if s == "" then .pystr s else .pylist (pySplitComma s)

/-- Python truthiness of a filter value. -/
def truthyFilter : PyFilter → Bool
  | .pynone => false
  | .pystr s => !(s == "")
  | .pylist l => !l.isEmpty

/-- Python `set(x)` on a filter value: `set(None)` raises `TypeError`
(`'NoneType' object is not iterable`); iterating a string yields its
characters; a list yields its elements. -/
def pySet : PyFilter → Except PyErr (List String)
  | .pynone => .error .typeError
  | .pystr s => .ok (s.data.map (fun c => String.mk [c]))
  | .pylist l => .ok l

/-- Nonemptiness of the intersection of two sets given as lists (the
truthiness of `set(a) & set(b)`). -/
def interNonempty (a b : List String) : Bool :=
  a.any (fun x => b.contains x)

/-- A collected pytest item, seen through the attributes the hook reads:
its `skip_if_open` marker (if any) as the pair (kwargs `reason`, positional
args), and the argument sets of its derived `BZ` and `JR` markers. -/
structure TItem where
  skip_if_open : Option (Option String × List String)
  bzMarks : List String
  jrMarks : List String
  deriving DecidableEq, Repr

/-- Line 100: `issue = skip_if_open.kwargs.get('reason') or
skip_if_open.args[0]` — a missing or falsy `reason` falls back to the first
positional argument, and `args[0]` on an empty tuple raises `IndexError`. -/
def markerIssue (reasonKw : Option String) (args : List String) :
    Except PyErr String :=
  match reasonKw with
  | some s =>
    if s == "" then
      match args with
      | [] => .error .indexError
      | a :: _ => .ok a
    else .ok s
  | none =>
    match args with
    | [] => .error .indexError
    | a :: _ => .ok a

/-- The body of the `for item in items` loop of
`pytest_collection_modifyitems` (lines 95-119), deciding whether `item` is
selected (`true`) or deselected (`false`).  First the `skip_if_open` marker is
processed (its issue argument extracted and `is_open` evaluated — both can
raise); then, if a filter is active, line 108 evaluates
`bool((set(bz_filters) & item_bz_marks) or (set(jr_filters) & item_jr_marks))`
left to right with Python `or` short-circuiting. -/
def processItem (isOpenOracle : String → Except PyErr PyVal)
    (bzF jrF : PyFilter) (it : TItem) : Except PyErr Bool :=
  let skipStep : Except PyErr Unit :=
    match it.skip_if_open with
    | none => .ok ()
    | some (kw, args) =>
      match markerIssue kw args with
      | .error e => .error e
      | .ok issue =>
        match isOpenOracle issue with
        | .error e => .error e
        | .ok _ => .ok ()
  match skipStep with
  | .error e => .error e
  | .ok _ =>
    if truthyFilter bzF || truthyFilter jrF then
      match pySet bzF with
      | .error e => .error e
      | .ok s1 =>
        if interNonempty s1 it.bzMarks then .ok true
        else
          match pySet jrF with
          | .error e => .error e
          | .ok s2 => .ok (interNonempty s2 it.jrMarks)
    else .ok true

/-- The item loop, accumulating (selected, deselected) in order. -/
def modifyLoop (oracle : String → Except PyErr PyVal) (bzF jrF : PyFilter) :
    List TItem → Except PyErr (List TItem × List TItem)
  | [] => .ok ([], [])
  | it :: rest =>
    match processItem oracle bzF jrF it with
    | .error e => .error e
    | .ok sel =>
      match modifyLoop oracle bzF jrF rest with
      | .error e => .error e
      | .ok (s, d) =>
        .ok (if sel then it :: s else s, if sel then d else it :: d)

/-- `pytest_collection_modifyitems` (issue_handlers.py lines 87-122),
restricted to its filtering/marker behaviour: the evaluation of `is_open` on
skip-marker arguments is abstracted by `oracle` (its value is only used for
the added `skipif` marker; only its raising matters here). -/
def pytest_collection_modifyitems (oracle : String → Except PyErr PyVal)
    (bzOpt jrOpt : Option String) (items : List TItem) :
    Except PyErr (List TItem × List TItem) :=
  modifyLoop oracle (initFilter bzOpt) (initFilter jrOpt) items

/-! ## Cache file serialization

Modelled from the spec: `VersionEncoder` and `search_version_key`
(`robottelo/utils/version.py`) are not part of the provided sources — only
their call sites in `generate_issue_collection` are.  Per the spec, the cache
file is a JSON object mapping `"<TRACKER>:<number>"` to
`{ "data": {...}, "used_in": [...] }`; "a custom encoder serializes
version-like fields to plain strings", and on reload `search_version_key`
restores version keys to `Version` instances. -/

/-- The decimal digit characters. -/
def digitChar : Nat → Char
  | 0 => '0'
  | 1 => '1'
  | 2 => '2'
  | 3 => '3'
  | 4 => '4'
  | 5 => '5'
  | 6 => '6'
  | 7 => '7'
  | 8 => '8'
  | 9 => '9'
  | _ => '?'

/-- Numeric value of a decimal digit character. -/
def charDigit (c : Char) : Nat := c.toNat - 48

/-- Decimal rendering of a natural number (big-endian character list). -/
def natToChars (n : Nat) : List Char :=
  if n = 0 then ['0'] else ((Nat.digits 10 n).map digitChar).reverse

/-- Decimal parsing of a (big-endian) character list. -/
def charsToNat (cs : List Char) : Nat :=
  Nat.ofDigits 10 ((cs.map charDigit).reverse)

/-- `str(Version)` for a two-component version: `"major.minor"`. -/
def verToString (v : Ver) : String :=
  String.mk (natToChars v.major ++ '.' :: natToChars v.minor)

/-- Is `c` one of the characters `'0'`-`'9'`? -/
def isDigitCh (c : Char) : Bool := 48 ≤ c.toNat && c.toNat ≤ 57

/-- Parse a `"major.minor"` character list back into a `Ver`. -/
def parseVerChars (cs : List Char) : Option Ver :=
  let a := cs.takeWhile (fun c => !(c == '.'))
  match cs.dropWhile (fun c => !(c == '.')) with
  | '.' :: rest =>
    if !a.isEmpty && !rest.isEmpty && a.all isDigitCh && rest.all isDigitCh then
      some ⟨charsToNat a, charsToNat rest⟩
    else none
  | _ => none

/-- Parse a version string back into a `Ver` (the restoration performed by
`search_version_key` on reload). -/
def parseVer (s : String) : Option Ver := parseVerChars s.data

/-- Parse every string of a serialized version list; `none` if any fails. -/
def parseVerList : List String → Option (List Ver)
  | [] => some []
  | s :: rest =>
    match parseVer s, parseVerList rest with
    | some v, some vs => some (v :: vs)
    | _, _ => none

/-- A JSON value as stored in the cache file (only the shapes this format
uses). -/
inductive JVal where
  | jnull
  | jbool (b : Bool)
  | jnum (n : Nat)
  | jstr (s : String)
  | jliststr (l : List String)
  deriving DecidableEq, Repr

/-- The JSON object serializing one record's own fields. -/
structure JRecJ where
  id : JVal
  is_open : JVal
  is_deselected : JVal
  status : JVal
  resolution : JVal
  fixVersions : JVal
  error : JVal
  deriving DecidableEq, Repr

/-- Serialize an optional string field. -/
def optStrJ : Option String → JVal
  | none => .jnull
  | some s => .jstr s

/-- Serialize an optional boolean field. -/
def optBoolJ : Option Bool → JVal
  | none => .jnull
  | some b => .jbool b

/-- Serialize a computed `is_open` field; the custom encoder writes a
`Version` value as its plain string. -/
def encPyValJ : Option PyVal → JVal
  | none => .jnull
  | some (.pybool b) => .jbool b
  | some (.pyver v) => .jstr (verToString v)

/-- Serialize the `fixVersions` field: version objects become plain strings. -/
def encFixJ : Option (List Ver) → JVal
  | none => .jnull
  | some l => .jliststr (l.map verToString)

/-- Serialize a record's own fields. -/
def encBase (b : JRecBase) : JRecJ :=
  { id := optStrJ b.id, is_open := encPyValJ b.is_open,
    is_deselected := optBoolJ b.is_deselected, status := optStrJ b.status,
    resolution := optStrJ b.resolution, fixVersions := encFixJ b.fixVersions,
    error := optStrJ b.error }

/-- Reload an optional string field. -/
def decOptStr : JVal → Option String
  | .jstr s => some s
  | _ => none

/-- Reload an optional boolean field. -/
def decOptBool : JVal → Option Bool
  | .jbool b => some b
  | _ => none

/-- Reload a computed `is_open` field. -/
def decPyVal : JVal → Option PyVal
  | .jbool b => some (.pybool b)
  | _ => none

/-- Reload the `fixVersions` field, restoring version strings to `Ver`. -/
def decFix : JVal → Option (List Ver)
  | .jliststr l => parseVerList l
  | _ => none

/-- Reload a record's own fields (with version-key restoration). -/
def decBase (j : JRecJ) : JRecBase :=
  { id := decOptStr j.id, is_open := decPyVal j.is_open,
    is_deselected := decOptBool j.is_deselected, status := decOptStr j.status,
    resolution := decOptStr j.resolution, fixVersions := decFix j.fixVersions,
    error := decOptStr j.error }

/-- The serialized form of a record with its nested `dupe_data` chain. -/
inductive JRecJC where
  | leafJ (b : JRecJ)
  | dupeJ (b : JRecJ) (d : JRecJC)
  deriving DecidableEq, Repr

/-- Serialize a record chain. -/
def encJRec : JRec → JRecJC
  | .leaf b => .leafJ (encBase b)
  | .dupe b d => .dupeJ (encBase b) (encJRec d)

/-- Reload a record chain. -/
def decJRec : JRecJC → JRec
  | .leafJ b => .leaf (decBase b)
  | .dupeJ b d => .dupe (decBase b) (decJRec d)

/-- The JSON object serializing one usage record. -/
structure UsageJ where
  filepath : JVal
  lineno : JVal
  testcase : JVal
  component : JVal
  importance : JVal
  usagekind : JVal
  deriving DecidableEq, Repr

/-- Serialize a usage record. -/
def encUsage (u : Usage) : UsageJ :=
  { filepath := .jstr u.filepath, lineno := .jnum u.lineno,
    testcase := .jstr u.testcase, component := optStrJ u.component,
    importance := optStrJ u.importance, usagekind := .jstr u.usagekind }

/-- Reload a plain string field. -/
def decStrD : JVal → String
  | .jstr s => s
  | _ => ""

/-- Reload a plain numeric field. -/
def decNumD : JVal → Nat
  | .jnum n => n
  | _ => 0

/-- Reload a usage record. -/
def decUsage (u : UsageJ) : Usage :=
  { filepath := decStrD u.filepath, lineno := decNumD u.lineno,
    testcase := decStrD u.testcase, component := decOptStr u.component,
    importance := decOptStr u.importance, usagekind := decStrD u.usagekind }

/-- The serialized form of one collected-issue index entry. -/
structure EntryJ where
  data : Option JRecJC
  used_in : List UsageJ
  deriving DecidableEq, Repr

/-- Serialize one index entry. -/
def encEntry (e : Entry) : EntryJ :=
  { data := e.data.map encJRec, used_in := e.used_in.map encUsage }

/-- Reload one index entry. -/
def decEntry (e : EntryJ) : Entry :=
  { data := e.data.map decJRec, used_in := e.used_in.map decUsage }

/-- Serialize a collected-issue index to the cache file format
(the `json.dump(collected_data, ..., cls=VersionEncoder)` step). -/
def encodeIndex (idx : List (String × Entry)) : List (String × EntryJ) :=
  idx.map (fun p => (p.1, encEntry p.2))

/-- Reload a cache file into a collected-issue index (the
`{k: search_version_key(k, v) for k, v in json.load(...).items()}` step). -/
def restoreIndex (jx : List (String × EntryJ)) : List (String × Entry) :=
  jx.map (fun p => (p.1, decEntry p.2))

/-- Serializability of a record's own fields: a computed `is_open` must be a
boolean.  (A record whose `is_open` is the `Version('0')` object — the
artefact of jira.py line 48 — does not survive the round trip.) -/
def wfBaseB (b : JRecBase) : Bool :=
  match b.is_open with
  | some (.pyver _) => false
  | _ => true

/-- Serializability of a record chain. -/
def wfJRecB : JRec → Bool
  | .leaf b => wfBaseB b
  | .dupe b d => wfBaseB b && wfJRecB d

/-- Serializability of an index entry. -/
def wfEntryB (e : Entry) : Bool :=
  match e.data with
  | none => true
  | some r => wfJRecB r

/-- Serializability of a collected-issue index. -/
def wfIndexB (idx : List (String × Entry)) : Bool :=
  idx.all (fun p => wfEntryB p.2)

/-- Concrete record used to witness the cache round trip. -/
def recW : JRecBase :=
  { id := some "SAT-20548", is_open := some (.pybool false),
    is_deselected := some false, status := some "Closed",
    resolution := some "Done", fixVersions := some [⟨6, 10⟩] }

/-- Concrete usage record used to witness the cache round trip. -/
def usageW : Usage :=
  { filepath := "tests/foreman/ui/test_sync.py", lineno := 124,
    testcase := "test_positive_sync", component := some "Repositories",
    importance := some "High", usagekind := "skip_if_open" }

/-- Concrete index used to witness the cache round trip. -/
def idxW : List (String × Entry) :=
  [("JR:SAT-20548", { data := some (.leaf recW), used_in := [usageW] })]

/-- Environment witnessing resolution from a reloaded cache. -/
def envW : JiraEnv :=
  { memoHit := none, cachedData := some (restoreIndex (encodeIndex idxW)),
    apiKey := some "KEY", api := fun _ => .error .connError }

/-- A closed, resolved record fixed in version 6.10 (concrete test data). -/
def recClosedDone : JRecBase :=
  { status := some "Closed", resolution := some "Done",
    fixVersions := some [⟨6, 10⟩] }

/-- A closed record whose resolution is the string `"Obs"`. -/
def recObs : JRecBase := { status := some "Closed", resolution := some "Obs" }

/-- A closed record whose resolution is exactly `"Obsolete"`. -/
def recObsolete : JRecBase :=
  { status := some "Closed", resolution := some "Obsolete" }

/-- An open-status record carrying resolution and fix-version data. -/
def recNew : JRecBase :=
  { status := some "New", resolution := some "Done",
    fixVersions := some [⟨6, 10⟩] }

/-- Concrete bases for a duplicate chain A → B → C. -/
def recA : JRecBase := { status := some "A" }

/-- Concrete bases for a duplicate chain A → B → C. -/
def recB : JRecBase := { status := some "B" }

/-- Concrete bases for a duplicate chain A → B → C. -/
def recC : JRecBase := { status := some "Closed" }

/-- An item with no markers at all. -/
def itemNoMarks : TItem := { skip_if_open := none, bzMarks := [], jrMarks := [] }

/-- An item whose `skip_if_open` marker has neither a `reason` keyword nor a
positional argument. -/
def itemBadMark : TItem :=
  { skip_if_open := some (none, []), bzMarks := [], jrMarks := [] }

/-- Environment with an API key whose remote call always fails. -/
def envFailKey : JiraEnv :=
  { memoHit := none, cachedData := none, apiKey := some "KEY",
    api := fun _ => .error .connError }

/-- Environment with no API key configured. -/
def envNoKey : JiraEnv :=
  { memoHit := none, cachedData := none, apiKey := none,
    api := fun _ => .error .connError }

/-! ## The full collection pipeline (marker scan + hook loop)

`pytest_collection_modifyitems` (issue_handlers.py line 84) first runs
`generate_issue_collection` over all items and only then its own per-item
loop.  The scan's marker loop (lines 268-271) reads the issue argument of
every marker whose name is in `valid_markers`, with the same
`kwargs.get('reason') or args[0]` pattern as line 100 — but only for items
that are not excluded earlier: line 238 `continue`s on `tests/robottelo/`
unit tests, line 263 `continue`s on items without a `component` marker.
The model below captures exactly the control flow that decides whether
collection raises: the docstring/BZ-JR extraction, slug computation,
`used_in` bookkeeping, workaround scanning and dynamic marker additions
are pure bookkeeping that cannot raise for the question at hand, and the
subsequent Bugzilla/Jira data-collection phase is run with no cache flags
and an empty collected index for the configurations modelled here. -/

/-- A pytest marker as the issue-handler reads it: its name, its `reason`
keyword argument (if any) and its positional arguments. -/
structure PyMarker where
  name : String
  reasonKw : Option String
  args : List String
  deriving DecidableEq, Repr

/-- A collected item for the full pipeline: its `nodeid`, its markers (in
`iter_markers` order, also consulted by `get_closest_marker`), and the
derived BZ/JR mark sets the hook's filter step sees. -/
structure CItem where
  nodeid : String
  markers : List PyMarker
  bzMarks : List String
  jrMarks : List String
  deriving DecidableEq, Repr

/-- `valid_markers` (issue_handlers.py line 201): the allow-list of marker
names whose argument carries an issue reference. -/
def valid_markers : List String := ["skip_if_open", "skip", "deselect"]

/-- `item.get_closest_marker(name)`: the first marker of that name in
`iter_markers` order, or `None`. -/
def closestMarker (name : String) (ms : List PyMarker) : Option PyMarker :=
  ms.find? (fun m => m.name == name)

/-- Python `s.startswith(pre)`. -/
def strStartsWith (pre s : String) : Bool :=
  startsWithChars pre.data s.data

/-- The view of a `CItem` that the hook's own loop reads. -/
def toTItem (it : CItem) : TItem :=
  { skip_if_open := (closestMarker "skip_if_open" it.markers).map
      (fun m => (m.reasonKw, m.args)),
    bzMarks := it.bzMarks, jrMarks := it.jrMarks }

/-- The marker loop of `generate_issue_collection` (lines 268-271): for every
marker whose name is allow-listed, read its issue argument
(`marker.kwargs.get('reason') or marker.args[0]` — `IndexError` when the
marker has neither). -/
def scanMarkers : List PyMarker → Except PyErr Unit
  | [] => .ok ()
  | m :: rest =>
    if valid_markers.contains m.name then
      match markerIssue m.reasonKw m.args with
      | .error e => .error e
      | .ok _ => scanMarkers rest
    else scanMarkers rest

/-- Line 267 onward: read `importance.args[0]` (`IndexError` on an empty
tuple), then run the marker loop. -/
def collectScanImp (it : CItem) (im : PyMarker) : Except PyErr Unit :=
  match im.args with
  | [] => .error .indexError
  | _ :: _ => scanMarkers it.markers

/-- Lines 266-271 for an item whose `component` marker is `cm`: read
`components.args[0]` (`IndexError` on an empty tuple), then
`item.get_closest_marker('importance').args[0]` (`AttributeError` when that
marker is missing), then the marker loop. -/
def collectScanBody (it : CItem) (cm : PyMarker) : Except PyErr Unit :=
  match cm.args with
  | [] => .error .indexError
  | _ :: _ =>
    match closestMarker "importance" it.markers with
    | none => .error .attributeError
    | some im => collectScanImp it im

/-- One iteration of the item loop of `generate_issue_collection`
(lines 237-271), keeping exactly the raising control flow: line 238 skips
`tests/robottelo/` unit tests; line 263 skips items without a `component`
marker; the rest is `collectScanBody`. -/
def collectScanItem (it : CItem) : Except PyErr Unit :=
  if strStartsWith "tests/robottelo/" it.nodeid then .ok ()
  else
    match closestMarker "component" it.markers with
    | none => .ok ()
    | some cm => collectScanBody it cm

/-- The item loop of `generate_issue_collection` over the whole collection. -/
def collectScan : List CItem → Except PyErr Unit
  | [] => .ok ()
  | it :: rest =>
    match collectScanItem it with
    | .error e => .error e
    | .ok _ => collectScan rest

/-- The collection pipeline as `pytest_collection_modifyitems` runs it:
`generate_issue_collection`'s item scan first (line 84; an exception there
aborts collection), then the hook's own per-item loop. -/
def collection_run (oracle : String → Except PyErr PyVal)
    (bzOpt jrOpt : Option String) (items : List CItem) :
    Except PyErr (List TItem × List TItem) :=
  match collectScan items with
  | .error e => .error e
  | .ok _ => pytest_collection_modifyitems oracle bzOpt jrOpt
      (items.map toTItem)

/-- A `skip` marker with neither `reason` keyword nor positional argument. -/
def markerSkipBare : PyMarker := { name := "skip", reasonKw := none, args := [] }

/-- A `skip_if_open` marker with neither `reason` keyword nor argument. -/
def markerSifoBare : PyMarker :=
  { name := "skip_if_open", reasonKw := none, args := [] }

/-- A `deselect` marker with neither `reason` keyword nor argument. -/
def markerDeselBare : PyMarker :=
  { name := "deselect", reasonKw := none, args := [] }

/-- A well-formed `component` marker. -/
def markerComp : PyMarker :=
  { name := "component", reasonKw := none, args := ["Repositories"] }

/-- A well-formed `importance` marker. -/
def markerImp : PyMarker :=
  { name := "importance", reasonKw := none, args := ["High"] }

/-- A robottelo unit-test item (excluded from the scan by line 238) whose
only marker is an argument-less `skip`. -/
def itemUnitSkip : CItem :=
  { nodeid := "tests/robottelo/test_a.py::test_x",
    markers := [markerSkipBare], bzMarks := [], jrMarks := [] }

/-- A robottelo unit-test item whose only marker is an argument-less
`skip_if_open`. -/
def itemHookBad : CItem :=
  { nodeid := "tests/robottelo/test_a.py::test_y",
    markers := [markerSifoBare], bzMarks := [], jrMarks := [] }

/-- A scanned item (component and importance present) carrying an
argument-less `deselect` marker. -/
def itemScanBad : CItem :=
  { nodeid := "tests/foreman/api/test_b.py::test_z",
    markers := [markerComp, markerImp, markerDeselBare],
    bzMarks := [], jrMarks := [] }

/-! ## Helper lemmas -/

theorem charDigit_digitChar {d : Nat} (h : d < 10) :
    charDigit (digitChar d) = d := by
  interval_cases d <;> decide

theorem digitChar_props {d : Nat} (h : d < 10) :
    isDigitCh (digitChar d) = true ∧ (digitChar d == '.') = false := by
  interval_cases d <;> exact ⟨by decide, by decide⟩

theorem natToChars_mem {n : Nat} {c : Char} (h : c ∈ natToChars n) :
    isDigitCh c = true ∧ (c == '.') = false := by
  unfold natToChars at h
  by_cases h0 : n = 0
  · rw [if_pos h0] at h
    simp only [List.mem_singleton] at h
    subst h
    exact ⟨by decide, by decide⟩
  · rw [if_neg h0] at h
    rw [List.mem_reverse] at h
    obtain ⟨d, hd, rfl⟩ := List.mem_map.mp h
    exact digitChar_props (Nat.digits_lt_base (by norm_num) hd)

theorem natToChars_ne_nil (n : Nat) : natToChars n ≠ [] := by
  unfold natToChars
  by_cases h0 : n = 0
  · simp [h0]
  · simp [h0, Nat.digits_ne_nil_iff_ne_zero]

theorem charsToNat_natToChars (n : Nat) : charsToNat (natToChars n) = n := by
  unfold charsToNat natToChars
  by_cases h0 : n = 0
  · rw [if_pos h0, h0]; decide
  · rw [if_neg h0, List.map_reverse, List.reverse_reverse, List.map_map]
    have he : ∀ d ∈ Nat.digits 10 n, (charDigit ∘ digitChar) d = d :=
      fun d hd => charDigit_digitChar (Nat.digits_lt_base (by norm_num) hd)
    rw [List.map_congr_left he, List.map_id', Nat.ofDigits_digits]

theorem takeWhile_append_stop (A B : List Char)
    (hA : ∀ c ∈ A, (c == '.') = false) :
    (A ++ '.' :: B).takeWhile (fun c => !(c == '.')) = A := by
  induction A with
  | nil => simp
  | cons a as ih =>
    have ha := hA a (List.mem_cons_self a as)
    simp only [List.cons_append, List.takeWhile_cons, ha, Bool.not_false,
      if_true]
    rw [ih (fun c hc => hA c (List.mem_cons_of_mem a hc))]

theorem dropWhile_append_stop (A B : List Char)
    (hA : ∀ c ∈ A, (c == '.') = false) :
    (A ++ '.' :: B).dropWhile (fun c => !(c == '.')) = '.' :: B := by
  induction A with
  | nil => simp
  | cons a as ih =>
    have ha := hA a (List.mem_cons_self a as)
    simp only [List.cons_append, List.dropWhile_cons, ha, Bool.not_false,
      if_true]
    exact ih (fun c hc => hA c (List.mem_cons_of_mem a hc))

theorem parseVer_verToString (v : Ver) : parseVer (verToString v) = some v := by
  obtain ⟨a, b⟩ := v
  show parseVerChars (natToChars a ++ '.' :: natToChars b) = some ⟨a, b⟩
  unfold parseVerChars
  rw [takeWhile_append_stop _ _ (fun c hc => (natToChars_mem hc).2),
    dropWhile_append_stop _ _ (fun c hc => (natToChars_mem hc).2)]
  have hea : (natToChars a).isEmpty = false :=
    List.isEmpty_eq_false.mpr (natToChars_ne_nil a)
  have heb : (natToChars b).isEmpty = false :=
    List.isEmpty_eq_false.mpr (natToChars_ne_nil b)
  have hda : (natToChars a).all isDigitCh = true :=
    List.all_eq_true.mpr (fun c hc => (natToChars_mem hc).1)
  have hdb : (natToChars b).all isDigitCh = true :=
    List.all_eq_true.mpr (fun c hc => (natToChars_mem hc).1)
  simp only [hea, heb, hda, hdb, Bool.not_false, Bool.and_true, Bool.true_and,
    if_true, charsToNat_natToChars]

theorem parseVerList_map (l : List Ver) :
    parseVerList (l.map verToString) = some l := by
  induction l with
  | nil => rfl
  | cons v vs ih => simp [parseVerList, parseVer_verToString, ih]

theorem decBase_encBase (b : JRecBase) (h : wfBaseB b = true) :
    decBase (encBase b) = b := by
  obtain ⟨i, io, isd, st, res, fv, err⟩ := b
  simp only [encBase, decBase, JRecBase.mk.injEq]
  refine ⟨?_, ?_, ?_, ?_, ?_, ?_, ?_⟩
  · cases i <;> rfl
  · cases io with
    | none => rfl
    | some pv =>
      cases pv with
      | pybool pb => rfl
      | pyver pvv => simp [wfBaseB] at h
  · cases isd <;> rfl
  · cases st <;> rfl
  · cases res <;> rfl
  · cases fv with
    | none => rfl
    | some l => simp [encFixJ, decFix, parseVerList_map]
  · cases err <;> rfl

theorem decJRec_encJRec (r : JRec) (h : wfJRecB r = true) :
    decJRec (encJRec r) = r := by
  induction r with
  | leaf b => simp [encJRec, decJRec, decBase_encBase b h]
  | dupe b d ih =>
    rw [wfJRecB, Bool.and_eq_true] at h
    simp [encJRec, decJRec, decBase_encBase b h.1, ih h.2]

theorem decUsage_encUsage (u : Usage) : decUsage (encUsage u) = u := by
  obtain ⟨fp, ln, tc, co, im, uk⟩ := u
  simp only [encUsage, decUsage, Usage.mk.injEq]
  refine ⟨rfl, rfl, rfl, ?_, ?_, rfl⟩
  · cases co <;> rfl
  · cases im <;> rfl

theorem decEntry_encEntry (e : Entry) (h : wfEntryB e = true) :
    decEntry (encEntry e) = e := by
  obtain ⟨d, u⟩ := e
  simp only [encEntry, decEntry, Entry.mk.injEq, Option.map_map,
    List.map_map]
  constructor
  · cases d with
    | none => rfl
    | some r =>
      have hr : wfJRecB r = true := by simpa [wfEntryB] using h
      simp [decJRec_encJRec r hr]
  · have he : ∀ x ∈ u, (decUsage ∘ encUsage) x = x :=
      fun x _ => decUsage_encUsage x
    rw [List.map_congr_left he, List.map_id']

theorem restoreIndex_encodeIndex (idx : List (String × Entry))
    (h : wfIndexB idx = true) : restoreIndex (encodeIndex idx) = idx := by
  induction idx with
  | nil => rfl
  | cons p rest ih =>
    rw [wfIndexB, List.all_cons, Bool.and_eq_true] at h
    simp only [encodeIndex, restoreIndex, List.map_cons]
    rw [decEntry_encEntry p.2 h.1]
    have := ih h.2
    simp only [encodeIndex, restoreIndex] at this
    rw [this]

theorem retryGo_first_ok {α : Type} (body : Nat → Except PyErr α) (a : Nat)
    (v : α) (h : body a = .ok v) (n : Nat) : retryGo body a (n + 1) = .ok v := by
  simp [retryGo, h]

theorem retryGo_all_fail {α : Type} (body : Nat → Except PyErr α)
    (h : ∀ a, ∃ e, body a = .error e) :
    ∀ n a, retryGo body a n = .error .retryError := by
  intro n
  induction n with
  | zero => intro a; rfl
  | succ m ih =>
    intro a
    obtain ⟨e, he⟩ := h a
    simp [retryGo, he, ih]

theorem get_data_body_defaults (env : JiraEnv) (nums : List String) (a : Nat)
    (h1 : truthyOptList env.memoHit = false)
    (h2 : truthyOptList env.cachedData = false)
    (h3 : truthyOptStr env.apiKey = false) :
    get_data_body env nums a = .ok (nums.map get_default_jr, false) := by
  unfold get_data_body
  cases nums with
  | nil => simp
  | cons x xs =>
    simp only [List.isEmpty_cons, if_false, Bool.false_eq_true]
    cases hm : env.memoHit with
    | none =>
      cases hc : env.cachedData with
      | none => simp [h3]
      | some l =>
        cases l with
        | nil => simp [h3]
        | cons y ys => rw [hc] at h2; simp [truthyOptList] at h2
    | some l =>
      cases l with
      | nil =>
        cases hc : env.cachedData with
        | none => simp [h3]
        | some l2 =>
          cases l2 with
          | nil => simp [h3]
          | cons y ys => rw [hc] at h2; simp [truthyOptList] at h2
      | cons y ys => rw [hm] at h1; simp [truthyOptList] at h1

theorem get_data_body_cached (env : JiraEnv) (x : String) (xs : List String)
    (a : Nat) (e : String × Entry) (es : List (String × Entry))
    (h1 : truthyOptList env.memoHit = false)
    (hc : env.cachedData = some (e :: es)) :
    get_data_body env (x :: xs) a =
      .ok ((e :: es).filterMap (fun p => p.2.data), false) := by
  unfold get_data_body
  simp only [List.isEmpty_cons, if_false, Bool.false_eq_true]
  cases hm : env.memoHit with
  | none => simp [hc]
  | some l =>
    cases l with
    | nil => simp [hc]
    | cons y ys => rw [hm] at h1; simp [truthyOptList] at h1

theorem get_data_body_api_error (env : JiraEnv) (x : String)
    (xs : List String) (a : Nat) (err : PyErr)
    (h1 : truthyOptList env.memoHit = false)
    (h2 : truthyOptList env.cachedData = false)
    (h3 : truthyOptStr env.apiKey = true)
    (he : env.api a = .error err) :
    get_data_body env (x :: xs) a = .error err := by
  unfold get_data_body
  simp only [List.isEmpty_cons, if_false, Bool.false_eq_true]
  cases hm : env.memoHit with
  | none =>
    cases hc : env.cachedData with
    | none => simp [h3, he]
    | some l =>
      cases l with
      | nil => simp [h3, he]
      | cons y ys => rw [hc] at h2; simp [truthyOptList] at h2
  | some l =>
    cases l with
    | nil =>
      cases hc : env.cachedData with
      | none => simp [h3, he]
      | some l2 =>
        cases l2 with
        | nil => simp [h3, he]
        | cons y ys => rw [hc] at h2; simp [truthyOptList] at h2
    | cons y ys => rw [hm] at h1; simp [truthyOptList] at h1

theorem hook_malformed_marker_raises
    (oracle : String → Except PyErr PyVal) (bzOpt jrOpt : Option String)
    (items : List TItem) (it : TItem)
    (hmark : it.skip_if_open = some (none, []))
    (hmem : it ∈ items) :
    ∃ e, pytest_collection_modifyitems oracle bzOpt jrOpt items =
      .error e := by
  unfold pytest_collection_modifyitems
  induction items with
  | nil => cases hmem
  | cons hd tl ih =>
    cases hproc : processItem oracle (initFilter bzOpt) (initFilter jrOpt) hd
    case error e => exact ⟨e, by simp [modifyLoop, hproc]⟩
    case ok sel =>
      rcases List.mem_cons.mp hmem with heq | hmemtl
      · exfalso
        subst heq
        rw [show processItem oracle (initFilter bzOpt) (initFilter jrOpt) it =
          .error .indexError from by simp [processItem, hmark, markerIssue]]
          at hproc
        exact Except.noConfusion hproc
      · obtain ⟨e, he⟩ := ih hmemtl
        refine ⟨e, ?_⟩
        simp only [modifyLoop, hproc, he]

theorem scanMarkers_malformed (ms : List PyMarker) (m : PyMarker)
    (hmem : m ∈ ms) (hname : valid_markers.contains m.name = true)
    (hkw : m.reasonKw = none) (hargs : m.args = []) :
    ∃ e, scanMarkers ms = .error e := by
  induction ms with
  | nil => cases hmem
  | cons hd tl ih =>
    by_cases hv : valid_markers.contains hd.name = true
    · cases hmi : markerIssue hd.reasonKw hd.args with
      | error e =>
        refine ⟨e, ?_⟩
        simp only [scanMarkers]
        rw [if_pos hv, hmi]
      | ok iss =>
        rcases List.mem_cons.mp hmem with rfl | hmemtl
        · rw [hkw, hargs] at hmi
          exact Except.noConfusion hmi
        · obtain ⟨e, he⟩ := ih hmemtl
          refine ⟨e, ?_⟩
          simp only [scanMarkers]
          rw [if_pos hv, hmi]
          exact he
    · rcases List.mem_cons.mp hmem with rfl | hmemtl
      · exact absurd hname hv
      · obtain ⟨e, he⟩ := ih hmemtl
        refine ⟨e, ?_⟩
        simp only [scanMarkers]
        rw [if_neg hv]
        exact he

theorem collectScan_member_error (items : List CItem) (it : CItem)
    (e0 : PyErr) (hmem : it ∈ items)
    (herr : collectScanItem it = .error e0) :
    ∃ e, collectScan items = .error e := by
  induction items with
  | nil => cases hmem
  | cons hd tl ih =>
    cases hsc : collectScanItem hd with
    | error e => exact ⟨e, by simp [collectScan, hsc]⟩
    | ok u =>
      rcases List.mem_cons.mp hmem with rfl | hmemtl
      · rw [herr] at hsc
        exact Except.noConfusion hsc
      · obtain ⟨e, he⟩ := ih hmemtl
        exact ⟨e, by simp [collectScan, hsc, he]⟩

theorem collectScanItem_scanned_error (it : CItem) (cm m : PyMarker)
    (hexcl : strStartsWith "tests/robottelo/" it.nodeid = false)
    (hcomp : closestMarker "component" it.markers = some cm)
    (hmmem : m ∈ it.markers)
    (hname : valid_markers.contains m.name = true)
    (hkw : m.reasonKw = none) (hargs : m.args = []) :
    ∃ e, collectScanItem it = .error e := by
  unfold collectScanItem
  rw [hexcl]
  simp only [Bool.false_eq_true, if_false]
  rw [hcomp]
  show ∃ e, collectScanBody it cm = .error e
  unfold collectScanBody
  cases hca : cm.args with
  | nil => exact ⟨.indexError, rfl⟩
  | cons c cs =>
    cases him : closestMarker "importance" it.markers with
    | none => exact ⟨.attributeError, rfl⟩
    | some im =>
      show ∃ e, collectScanImp it im = .error e
      unfold collectScanImp
      cases im.args with
      | nil => exact ⟨.indexError, rfl⟩
      | cons i is' =>
        exact scanMarkers_malformed it.markers m hmmem hname hkw hargs

/-! ## Claim theorems -/

/-- C1 (code_bug evidence): for a record with status in the closed-status set,
resolution outside the wont-fix resolution, and minimum fix-version `6.10` at
or below the reported server version `6.11`, `is_open_jr` does NOT return a
falsy value: line 48 of jira.py evaluates
`(get_sat_version() < min(fixVersions)) or Version('0')`, and since the
comparison is `False` it returns the object `Version('0')`, which is truthy —
contradicting the claim and the code's own comment
("Consider fixed, JR is not open"). -/
theorem is_open_jr_fixed_version_returns_truthy :
    is_open_jr ⟨6, 11⟩ (.leaf recClosedDone) = .ok (.pyver ⟨0, 0⟩) ∧
    truthy (.pyver ⟨0, 0⟩) = true := by
  exact ⟨rfl, rfl⟩

/-- C2 counterexample: a closed record whose resolution is `"Obs"` — not the
exact string `"Obsolete"` — is nonetheless deselected, because
`WONTFIX_RESOLUTIONS` is the bare string `"Obsolete"` and Python `in` against
a string is a substring test.  This refutes "for every other (status,
resolution) combination it returns false". -/
theorem should_deselect_jr_substring_counterexample :
    should_deselect_jr (.leaf recObs) = .ok true ∧
    recObs.resolution = some "Obs" ∧ ("Obs" : String) ≠ "Obsolete" := by
  exact ⟨rfl, rfl, by decide⟩

/-- C2 amended: for a record whose `is_deselected` has not been precomputed,
`should_deselect_jr` returns `true` exactly when the duplicate-followed
record's status is in the closed-status set AND its resolution is a
(contiguous) substring of `"Obsolete"` — e.g. `"Obsolete"` itself, `"Obs"`,
or the empty string.  (A closed record with a missing resolution raises
`TypeError` instead of returning a boolean.) -/
theorem should_deselect_jr_iff (r : JRec)
    (h : r.base.is_deselected = none) :
    should_deselect_jr r = .ok true ↔
      (statusIn (follow_duplicates r).status CLOSED_STATUSES = true ∧
       ∃ s, (follow_duplicates r).resolution = some s ∧
         pyInStr s WONTFIX_RESOLUTIONS = true) := by
  unfold should_deselect_jr
  rw [h]
  unfold shouldDeselectPost
  cases hres : (follow_duplicates r).resolution with
  | none =>
    by_cases hc : statusIn (follow_duplicates r).status CLOSED_STATUSES = true
    · rw [if_pos hc]
      constructor
      · intro hcontra; exact Except.noConfusion hcontra
      · rintro ⟨-, s, hs, -⟩; exact Option.noConfusion hs
    · rw [if_neg hc]
      constructor
      · intro hcontra; exact Bool.noConfusion (Except.ok.inj hcontra)
      · rintro ⟨hc2, -⟩; exact absurd hc2 hc
  | some s =>
    by_cases hc : statusIn (follow_duplicates r).status CLOSED_STATUSES = true
    · rw [if_pos hc]
      constructor
      · intro hok
        exact ⟨hc, s, rfl, Except.ok.inj hok⟩
      · rintro ⟨-, t, ht, hsub⟩
        obtain rfl := Option.some.inj ht
        show Except.ok (pyInStr s WONTFIX_RESOLUTIONS) = Except.ok true
        rw [hsub]
    · rw [if_neg hc]
      constructor
      · intro hcontra; exact Bool.noConfusion (Except.ok.inj hcontra)
      · rintro ⟨hc2, -⟩; exact absurd hc2 hc

/-- C2 witness: a closed record with resolution exactly `"Obsolete"` is
deselected, via the amended theorem. -/
theorem should_deselect_jr_iff_witness :
    should_deselect_jr (.leaf recObsolete) = .ok true :=
  (should_deselect_jr_iff (.leaf recObsolete) rfl).mpr
    ⟨by decide, "Obsolete", rfl, by decide⟩

/-- C3 (code_bug evidence): on a cyclic duplicate chain (here the record
`SAT-CYCLE`, whose `dupe_data` references itself — representable through
Python object references), the recursion of `follow_duplicates` never
returns: no amount of unfolding fuel reaches a result, i.e. the source's
unguarded recursion (jira.py lines 70-74) runs forever instead of
terminating as the claim requires. -/
theorem follow_duplicates_cycle_diverges :
    ∀ fuel : Nat, followDupHeap cyclicDupe "SAT-CYCLE" fuel = none := by
  intro fuel
  induction fuel with
  | zero => rfl
  | succ n ih => simpa [followDupHeap, cyclicDupe] using ih

/-- C4 counterexample: with an API key configured and the remote call failing
on every attempt, `get_data_jr` propagates `RetryError` after the 4 bounded
attempts instead of yielding the default conservative records. -/
theorem get_data_jr_retry_failure_propagates :
    get_data_jr envFailKey ["SAT-1"] = .error .retryError ∧
    get_data_jr envFailKey ["SAT-1"] ≠
      .ok ([get_default_jr "SAT-1"], false) := by
  refine ⟨rfl, fun hcontra => ?_⟩
  rw [show get_data_jr envFailKey ["SAT-1"] = .error .retryError from rfl]
    at hcontra
  exact Except.noConfusion hcontra

/-- C4 amended: when the remote batch fetch keeps failing, `get_data_jr`
retries up to `RETRY_STOP_ATTEMPTS = 4` attempts (with a fixed
`RETRY_WAIT_SECONDS = 20` wait) and then PROPAGATES the failure as a
`RetryError`, aborting collection; the default conservative records
(`get_default_jr`, `is_open` true) are yielded only when the Jira API key is
unset/empty (and no memo or cache answers first). -/
theorem get_data_jr_failure_behaviour :
    (∀ (env : JiraEnv) (nums : List String),
      truthyOptList env.memoHit = false →
      truthyOptList env.cachedData = false →
      truthyOptStr env.apiKey = false →
      get_data_jr env nums = .ok (nums.map get_default_jr, false)) ∧
    (∀ (env : JiraEnv) (nums : List String),
      truthyOptList env.memoHit = false →
      truthyOptList env.cachedData = false →
      truthyOptStr env.apiKey = true →
      nums ≠ [] →
      (∀ a, ∃ e, env.api a = .error e) →
      get_data_jr env nums = .error .retryError) := by
  constructor
  · intro env nums h1 h2 h3
    unfold get_data_jr
    have h4 : RETRY_STOP_ATTEMPTS = 3 + 1 := rfl
    rw [h4]
    exact retryGo_first_ok _ _ _ (get_data_body_defaults env nums 1 h1 h2 h3) 3
  · intro env nums h1 h2 h3 hne hapi
    obtain ⟨x, xs, rfl⟩ : ∃ x xs, nums = x :: xs := by
      cases nums with
      | nil => exact absurd rfl hne
      | cons x xs => exact ⟨x, xs, rfl⟩
    unfold get_data_jr
    apply retryGo_all_fail
    intro a
    obtain ⟨e, he⟩ := hapi a
    exact ⟨e, get_data_body_api_error env x xs a e h1 h2 h3 he⟩

/-- C4 witness for the amended theorem: both halves applied at concrete
inputs — a key-less environment yields the default record for `SAT-1`, and a
keyed environment whose API always fails yields `RetryError`. -/
theorem get_data_jr_failure_behaviour_witness :
    get_data_jr envNoKey ["SAT-1"] = .ok ([get_default_jr "SAT-1"], false) ∧
    get_data_jr envFailKey ["SAT-2"] = .error .retryError := by
  constructor
  · exact get_data_jr_failure_behaviour.1 envNoKey ["SAT-1"] rfl rfl rfl
  · exact get_data_jr_failure_behaviour.2 envFailKey ["SAT-2"] rfl rfl rfl
      (by simp) (fun a => ⟨.connError, rfl⟩)

/-- C5 (code_bug evidence): with `--BZ 123456` given and `--JR` omitted, an
item whose derived BZ-marker set does not intersect the filter list is not
deselected — the hook crashes with `TypeError`, because line 108 of
issue_handlers.py evaluates `set(jr_filters)` on `None` once the BZ
intersection is empty.  With both flags omitted the same item is selected,
confirming the bug is specific to the deselection path. -/
theorem pytest_collection_modifyitems_bz_filter_type_error :
    pytest_collection_modifyitems (fun _ => .ok (.pybool true))
      (some "123456") none [itemNoMarks] = .error .typeError ∧
    pytest_collection_modifyitems (fun _ => .ok (.pybool true)) none none
      [itemNoMarks] = .ok ([itemNoMarks], []) := by
  exact ⟨rfl, rfl⟩

/-- C6: for a raw issue record (no precomputed `is_open` — the fetched field
list excludes it, jira.py lines 192-194 — and no `dupe_data`, which
`collect_dupes` attaches only to records resolved as duplicates) whose status
is in the fixed open-status set, `is_open_jr` returns `True`, regardless of
the record's resolution and fix-version data. -/
theorem is_open_jr_open_status_true (sat : Ver) (b : JRecBase) (st : String)
    (hio : b.is_open = none) (hst : b.status = some st)
    (hmem : OPEN_STATUSES.contains st = true) :
    is_open_jr sat (.leaf b) = .ok (.pybool true) := by
  unfold is_open_jr
  rw [show (JRec.leaf b).base = b from rfl, hio]
  show isOpenPost sat (follow_duplicates (.leaf b)) = _
  rw [show follow_duplicates (.leaf b) = b from rfl]
  unfold isOpenPost
  rw [show statusIn b.status OPEN_STATUSES = true from by
    rw [hst]; simpa [statusIn] using hmem]
  rfl

/-- C6 witness: a record in status `"New"` (carrying resolution and
fix-version data) is open on any server version. -/
theorem is_open_jr_open_status_true_witness :
    is_open_jr ⟨6, 11⟩ (.leaf recNew) = .ok (.pybool true) :=
  is_open_jr_open_status_true ⟨6, 11⟩ recNew "New" rfl rfl (by decide)

/-- C7: duplicate-following is transitive.  For a non-cyclic chain where
record A's `dupe_data` is B and B's `dupe_data` is C (and C has none),
`follow_duplicates` applied to A returns C; consequently, resolving A (when
A carries no precomputed `is_open`) evaluates exactly the post-follow status
logic on C. -/
theorem follow_duplicates_transitive (a b c : JRecBase) (sat : Ver) :
    follow_duplicates (.dupe a (.dupe b (.leaf c))) = c ∧
    (a.is_open = none →
      is_open_jr sat (.dupe a (.dupe b (.leaf c))) = isOpenPost sat c) := by
  constructor
  · rfl
  · intro h
    unfold is_open_jr
    rw [show (JRec.dupe a (JRec.dupe b (JRec.leaf c))).base = a from rfl, h]
    rfl

/-- C7 witness: the chain A → B → C at concrete records resolves to C. -/
theorem follow_duplicates_transitive_witness :
    follow_duplicates (.dupe recA (.dupe recB (.leaf recC))) = recC ∧
    is_open_jr ⟨6, 11⟩ (.dupe recA (.dupe recB (.leaf recC))) =
      isOpenPost ⟨6, 11⟩ recC := by
  refine ⟨(follow_duplicates_transitive recA recB recC ⟨6, 11⟩).1, ?_⟩
  exact (follow_duplicates_transitive recA recB recC ⟨6, 11⟩).2 rfl

/-- C8 (spec-modelled encoder/restorer): serializing a serializable
collected-issue index to the cache file format and reloading it (with
version-key restoration) reproduces the index exactly; and resolving from the
reloaded cache, `get_data_jr` answers from the cache entries' `data` fields
with NO remote API call (flag `false`) — regardless of how the remote API
would behave. -/
theorem cache_round_trip_no_api (idx : List (String × Entry)) (env : JiraEnv)
    (nums : List String) (hwf : wfIndexB idx = true) (hne : idx ≠ [])
    (hcd : env.cachedData = some (restoreIndex (encodeIndex idx)))
    (hmemo : truthyOptList env.memoHit = false) (hnums : nums ≠ []) :
    restoreIndex (encodeIndex idx) = idx ∧
    get_data_jr env nums = .ok (idx.filterMap (fun p => p.2.data), false) := by
  have hrt := restoreIndex_encodeIndex idx hwf
  refine ⟨hrt, ?_⟩
  rw [hrt] at hcd
  obtain ⟨i, is', rfl⟩ : ∃ i is', idx = i :: is' := by
    cases idx with
    | nil => exact absurd rfl hne
    | cons i is' => exact ⟨i, is', rfl⟩
  obtain ⟨x, xs, rfl⟩ : ∃ x xs, nums = x :: xs := by
    cases nums with
    | nil => exact absurd rfl hnums
    | cons x xs => exact ⟨x, xs, rfl⟩
  unfold get_data_jr
  have h4 : RETRY_STOP_ATTEMPTS = 3 + 1 := rfl
  rw [h4]
  exact retryGo_first_ok _ _ _
    (get_data_body_cached env x xs 1 i is' hmemo hcd) 3

/-- C8 witness: the concrete one-entry index `idxW` round-trips, and the
environment `envW` holding its reloaded form resolves `SAT-20548` without
calling the (always-failing) remote API. -/
theorem cache_round_trip_no_api_witness :
    restoreIndex (encodeIndex idxW) = idxW ∧
    get_data_jr envW ["SAT-20548"] =
      .ok (idxW.filterMap (fun p => p.2.data), false) :=
  cache_round_trip_no_api idxW envW ["SAT-20548"] (by decide) (by decide)
    rfl rfl (by decide)

/-- C9 counterexample: a collected item under `tests/robottelo/` whose only
marker is an allow-listed `skip` marker with neither a `reason` keyword nor
a positional argument is SILENTLY TOLERATED — the whole collection pipeline
completes without error, because line 238 `continue`s past the item before
the marker loop (line 270) ever reads the argument, and the hook's own loop
only processes `skip_if_open` markers.  This refutes the claim for
"other allow-listed" markers. -/
theorem allow_listed_marker_silently_tolerated :
    collection_run (fun _ => .ok (.pybool true)) none none [itemUnitSkip] =
      .ok ([toTItem itemUnitSkip], []) ∧
    valid_markers.contains "skip" = true ∧
    itemUnitSkip.markers = [markerSkipBare] ∧
    markerSkipBare.reasonKw = none ∧ markerSkipBare.args = [] := by
  exact ⟨rfl, rfl, rfl, rfl, rfl⟩

/-- C9 amended: a malformed `skip_if_open` marker (no `reason` keyword, no
positional argument) raises a hard error at collection for EVERY item — the
hook's loop (line 100) processes it unconditionally once the scan returns.
A malformed `skip` or `deselect` marker raises a hard error exactly when the
issue scan processes the item (its nodeid is not under `tests/robottelo/`
and it carries a `component` marker — then line 270, or an earlier read on
the same item, raises); on items the scan excludes, a malformed
`skip`/`deselect` marker is silently tolerated and (absent filters and a
`skip_if_open` marker) the item is collected normally. -/
theorem malformed_marker_error_scope :
    (∀ (oracle : String → Except PyErr PyVal) (bzOpt jrOpt : Option String)
       (items : List CItem) (it : CItem) (m : PyMarker),
      it ∈ items → closestMarker "skip_if_open" it.markers = some m →
      m.reasonKw = none → m.args = [] →
      ∃ e, collection_run oracle bzOpt jrOpt items = .error e) ∧
    (∀ (oracle : String → Except PyErr PyVal) (bzOpt jrOpt : Option String)
       (items : List CItem) (it : CItem) (cm m : PyMarker),
      it ∈ items → strStartsWith "tests/robottelo/" it.nodeid = false →
      closestMarker "component" it.markers = some cm →
      m ∈ it.markers → valid_markers.contains m.name = true →
      m.reasonKw = none → m.args = [] →
      ∃ e, collection_run oracle bzOpt jrOpt items = .error e) ∧
    (∀ (oracle : String → Except PyErr PyVal) (it : CItem),
      (strStartsWith "tests/robottelo/" it.nodeid = true ∨
        closestMarker "component" it.markers = none) →
      closestMarker "skip_if_open" it.markers = none →
      collection_run oracle none none [it] = .ok ([toTItem it], [])) := by
  refine ⟨?_, ?_, ?_⟩
  · intro oracle bzOpt jrOpt items it m hmem hclosest hkw hargs
    cases hscan : collectScan items with
    | error e => exact ⟨e, by simp [collection_run, hscan]⟩
    | ok u =>
      have hti : (toTItem it).skip_if_open = some (none, []) := by
        simp [toTItem, hclosest, hkw, hargs]
      have hmemmap : toTItem it ∈ items.map toTItem :=
        List.mem_map_of_mem toTItem hmem
      obtain ⟨e, he⟩ := hook_malformed_marker_raises oracle bzOpt jrOpt
        (items.map toTItem) (toTItem it) hti hmemmap
      exact ⟨e, by simp [collection_run, hscan, he]⟩
  · intro oracle bzOpt jrOpt items it cm m hmem hexcl hcomp hmmem hname hkw
      hargs
    obtain ⟨e0, he0⟩ :=
      collectScanItem_scanned_error it cm m hexcl hcomp hmmem hname hkw hargs
    obtain ⟨e1, he1⟩ := collectScan_member_error items it e0 hmem he0
    exact ⟨e1, by simp [collection_run, he1]⟩
  · intro oracle it hexcl hsio
    have hitem : collectScanItem it = .ok () := by
      unfold collectScanItem
      rcases hexcl with h | h
      · simp [h]
      · by_cases hs : strStartsWith "tests/robottelo/" it.nodeid = true
        · simp [hs]
        · simp [hs, h]
    have hti : (toTItem it).skip_if_open = none := by
      simp [toTItem, hsio]
    have hhook : pytest_collection_modifyitems oracle none none
        [toTItem it] = .ok ([toTItem it], []) := by
      simp [pytest_collection_modifyitems, initFilter, modifyLoop,
        processItem, hti, truthyFilter]
    have hscan : collectScan [it] = .ok () := by simp [collectScan, hitem]
    simp [collection_run, hscan, hhook]

/-- C9 witness for the amended theorem: all three clauses at concrete
collections — a malformed `skip_if_open` on a scan-excluded item still
errors, a malformed `deselect` on a scanned item errors, and a malformed
`skip` on a scan-excluded item is tolerated. -/
theorem malformed_marker_error_scope_witness :
    (∃ e, collection_run (fun _ => .ok (.pybool true)) none none
      [itemHookBad] = .error e) ∧
    (∃ e, collection_run (fun _ => .ok (.pybool true)) none none
      [itemScanBad] = .error e) ∧
    collection_run (fun _ => .ok (.pybool true)) none none [itemUnitSkip] =
      .ok ([toTItem itemUnitSkip], []) := by
  refine ⟨?_, ?_, ?_⟩
  · exact malformed_marker_error_scope.1 (fun _ => .ok (.pybool true))
      none none [itemHookBad] itemHookBad markerSifoBare
      (List.mem_singleton.mpr rfl) rfl rfl rfl
  · exact malformed_marker_error_scope.2.1 (fun _ => .ok (.pybool true))
      none none [itemScanBad] itemScanBad markerComp markerDeselBare
      (List.mem_singleton.mpr rfl) (by decide) rfl (by decide) (by decide)
      rfl rfl
  · exact malformed_marker_error_scope.2.2 (fun _ => .ok (.pybool true))
      itemUnitSkip (Or.inl (by decide)) rfl

/-- C10: for a record (no precomputed `is_open`) whose duplicate-followed
status is neither in the open-status set nor closed-with-wontfix-resolution,
and whose `fixVersions` field is absent or an empty list, `is_open_jr` raises
an exception — `TypeError` from `min(None)` (or from `None in "Obsolete"`
when the status is closed with a missing resolution), `ValueError` from
`min([])` — instead of returning a boolean. -/
theorem is_open_jr_no_fixversions_raises (sat : Ver) (r : JRec)
    (hio : r.base.is_open = none)
    (hopen : statusIn (follow_duplicates r).status OPEN_STATUSES = false)
    (hwontfix : statusIn (follow_duplicates r).status CLOSED_STATUSES = true →
      ∀ s, (follow_duplicates r).resolution = some s →
        pyInStr s WONTFIX_RESOLUTIONS = false)
    (hfv : (follow_duplicates r).fixVersions = none ∨
      (follow_duplicates r).fixVersions = some []) :
    ∃ e, is_open_jr sat r = .error e := by
  unfold is_open_jr
  rw [hio]
  unfold isOpenPost
  rw [hopen]
  simp only [Bool.false_eq_true, if_false]
  have hfix : ∃ e, fixedCheck sat (follow_duplicates r) = .error e := by
    unfold fixedCheck
    rcases hfv with hfv | hfv
    · exact ⟨.typeError, by rw [hfv]⟩
    · exact ⟨.valueError, by rw [hfv]⟩
  by_cases hc : statusIn (follow_duplicates r).status CLOSED_STATUSES = true
  · rw [if_pos hc]
    cases hres : (follow_duplicates r).resolution with
    | none => exact ⟨.typeError, rfl⟩
    | some s =>
      obtain ⟨e, he⟩ := hfix
      refine ⟨e, ?_⟩
      show (if pyInStr s WONTFIX_RESOLUTIONS = true then
        Except.ok (PyVal.pybool true)
        else fixedCheck sat (follow_duplicates r)) = Except.error e
      rw [if_neg (by simp [hwontfix hc s hres])]
      exact he
  · rw [if_neg hc]
    exact hfix

/-- C10 witness: a record in the unknown status `"Weird"` with no
`fixVersions` raises. -/
theorem is_open_jr_no_fixversions_raises_witness :
    ∃ e, is_open_jr ⟨6, 11⟩ (.leaf { status := some "Weird" }) = .error e :=
  is_open_jr_no_fixversions_raises ⟨6, 11⟩ (.leaf { status := some "Weird" })
    rfl (by decide) (fun hc => absurd hc (by decide)) (Or.inl rfl)
